import Mathlib

/- Verification development for the weather-enrichment utilities of the
   historical BC wildfires pipeline (src/data/historical_bc_wildfires/utils.py).
   Each Python function used by the claims is shallowly embedded as a Lean
   definition; machine reals (floats) are modelled by ℝ, pandas datetime64[ns]
   cells by ℤ nanosecond counts with NaT as none, and remote Earth Engine
   interactions by explicit oracle inputs. -/

namespace Wildfire

/-! ## TimestampNormalizer: convert_float_to_datetime (utils.py lines 20-58) -/

/-- Gregorian leap-year test (as used by strptime's date validation). -/
def isLeap (y : ℤ) : Bool := y % 4 == 0 && (y % 100 != 0 || y % 400 == 0)

/-- Number of days in a month of a given year. -/
def daysInMonth (y m : ℤ) : ℤ :=
  if m = 2 then (if isLeap y then 29 else 28)
  else if m = 4 ∨ m = 6 ∨ m = 9 ∨ m = 11 then 30
  else 31

/-- Day-level validity of a Y/M/D triple under the proleptic Gregorian calendar. -/
def validDate (y m d : ℤ) : Bool :=
  decide (1 ≤ m) && decide (m ≤ 12) && decide (1 ≤ d) && decide (d ≤ daysInMonth y m)

/-- Validity of an h/m/s triple under the %H%M%S patterns. -/
def validTime (hh mi ss : ℤ) : Bool :=
  decide (0 ≤ hh) && decide (hh ≤ 23) && decide (0 ≤ mi) && decide (mi ≤ 59) &&
  decide (0 ≤ ss) && decide (ss ≤ 59)

/-- Days from 1970-01-01 to the given civil date (the standard civil-from-days
algorithm used by the underlying datetime libraries; all divisions hit
non-negative operands for the 4-digit years the parser accepts). -/
def daysFromCivil (y m d : ℤ) : ℤ :=
  let y2 : ℤ := if m ≤ 2 then y - 1 else y
  let era : ℤ := (if 0 ≤ y2 then y2 else y2 - 399) / 400
  let yoe : ℤ := y2 - era * 400
  let mp : ℤ := (m + 9) % 12
  let doy : ℤ := (153 * mp + 2) / 5 + d - 1
  let doe : ℤ := yoe * 365 + yoe / 4 - yoe / 100 + doy
  era * 146097 + doe - 719468

/-- Nanoseconds since the Unix epoch of a calendar date-time. -/
def nanosOfDate (y m d hh mi ss : ℤ) : ℤ :=
  (((daysFromCivil y m d * 24 + hh) * 60 + mi) * 60 + ss) * 1000000000

/-- Whether a nanosecond count is representable as a pandas datetime64[ns]
value (a signed 64-bit count whose minimum is reserved for NaT); pandas
coerces out-of-bounds parses to NaT under errors=coerce. -/
def inBounds (n : ℤ) : Bool :=
  decide (-(2 ^ 63 - 1) ≤ n) && decide (n ≤ 2 ^ 63 - 1)

/-- Digit string of an int64 cell, as produced by astype(int64).astype(str). -/
def digitStr (v : ℤ) : String := toString v

/-- Parse one non-null cell the way the two masked pd.to_datetime calls do:
an 8-character string parses under %Y%m%d, a 14-character string under
%Y%m%d%H%M%S; any other length is left out of both masks, and any failed or
out-of-bounds parse coerces to NaT (none). -/
def parseCell (v : ℤ) : Option ℤ :=
  if (digitStr v).length = 8 then
    if 0 ≤ v then
      let y := v / 10000
      let m := v / 100 % 100
      let d := v % 100
      if validDate y m d && inBounds (nanosOfDate y m d 0 0 0) then
        some (nanosOfDate y m d 0 0 0)
      else none
    else none
  else if (digitStr v).length = 14 then
    if 0 ≤ v then
      let y := v / 10000000000
      let m := v / 100000000 % 100
      let d := v / 1000000 % 100
      let hh := v / 10000 % 100
      let mi := v / 100 % 100
      let ss := v % 100
      if validDate y m d && validTime hh mi ss &&
          inBounds (nanosOfDate y m d hh mi ss) then
        some (nanosOfDate y m d hh mi ss)
      else none
    else none
  else none

/-- Shallow embedding of convert_float_to_datetime. The float series is
represented by the int64 values the function itself casts every non-null cell
to; a datetime64[ns] cell is an ℤ nanosecond count and NaT is none. The
initialization uses data=series (the data=pd.NaT alternative is commented out
in the source), so under the numeric-to-datetime64 cast each raw value v is
reinterpreted as v nanoseconds after the epoch; Series.update then overwrites
only the cells whose masked parse succeeded, because update skips NaT/NaN
entries of the updating series. -/
def convert_float_to_datetime (series : List (Option ℤ)) : List (Option ℤ) :=
  series.map fun cell =>
    match cell with
    | none => none
    | some v =>
      match parseCell v with
      | some t => some t
      | none => some v

/-- C1 (code_bug evidence): a cell whose digit string has length neither 8 nor
14 (13.0, two digits) does not become NaT; the data=series initialization
reinterprets it as 13 nanoseconds after the epoch and Series.update never
replaces it. Likewise an 8-digit cell that fails its %Y%m%d parse (99999999,
month 99) survives unchanged. Both contradict the claim and the function's own
docstring, which promises that invalid lengths become NaT. -/
theorem C1_invalid_length_not_unknown :
    convert_float_to_datetime [some 13] = [some 13] ∧
    convert_float_to_datetime [some 99999999] = [some 99999999] ∧
    convert_float_to_datetime [some 13] ≠ [none] ∧
    convert_float_to_datetime [some 99999999] ≠ [none] := by
  refine ⟨by decide, by decide, by decide, by decide⟩

/-! ## RetryPolicy: retry_with_backoff (utils.py lines 119-161)

The decorated call is modelled by a stream of per-attempt outcomes
(attempt number to result), the random.uniform jitter draws by an input
stream of reals, and time.sleep by an output trace of slept durations. -/

/-- A raised Python exception, as far as the wrapper can observe it: whether it
belongs to the decorator's exceptions tuple (ee.EEException by default), and
its message string. -/
structure Err where
  isEE : Bool
  msg : String
deriving DecidableEq

/-- Outcome of one invocation of the wrapped function. -/
inductive CallResult (α : Type) where
  | ok (a : α)
  | exc (e : Err)
deriving DecidableEq

/-- Substring test on character lists: does pat occur inside s. -/
def containsSub (pat : List Char) : List Char → Bool
  | [] => pat.isEmpty
  | c :: rest => pat.isPrefixOf (c :: rest) || containsSub pat rest

/-- Model of the source's classifier "timed out" in str(e).lower(). -/
def containsTimedOut (s : String) : Bool :=
  containsSub "timed out".toList (s.toList.map Char.toLower)

/-- An error that the wrapper will retry: it is caught by the exceptions tuple
and its lowercased message contains "timed out". -/
def transient (e : Err) : Bool := e.isEE && containsTimedOut e.msg

/-- One run of the while-loop of the wrapper produced by retry_with_backoff:
k is the index of the current attempt, remaining = max_retries - retries, and
delay the current backoff delay. Returns the final outcome (ok a for a
returned value, exc e for a propagated exception), the number of invocations
of the wrapped function, and the list of slept durations in order. -/
def retryAux {α : Type} (f : ℕ → CallResult α) (j : ℕ → ℝ) (backoff_factor : ℝ) :
    ℕ → ℕ → ℝ → CallResult α × ℕ × List ℝ
  | k, remaining, delay =>
    match f k with
    | .ok a => (.ok a, 1, [])
    | .exc e =>
      match remaining with
      | 0 => (.exc e, 1, [])
      | r + 1 =>
        if transient e then
          ((retryAux f j backoff_factor (k + 1) r (delay * backoff_factor)).1,
           (retryAux f j backoff_factor (k + 1) r (delay * backoff_factor)).2.1 + 1,
           (delay + j k) :: (retryAux f j backoff_factor (k + 1) r (delay * backoff_factor)).2.2)
        else (.exc e, 1, [])

/-- Shallow embedding of retry_with_backoff applied to a call: run the loop
from attempt 0 with the full retry budget and the initial delay. -/
def retry_with_backoff {α : Type} (max_retries : ℕ) (initial_delay backoff_factor : ℝ)
    (f : ℕ → CallResult α) (j : ℕ → ℝ) : CallResult α × ℕ × List ℝ :=
  retryAux f j backoff_factor 0 max_retries initial_delay

/-- Every run of the retry loop invokes the wrapped function at least once. -/
theorem retryAux_calls_pos {α : Type} (f : ℕ → CallResult α) (j : ℕ → ℝ) (b : ℝ)
    (k remaining : ℕ) (d : ℝ) : 1 ≤ (retryAux f j b k remaining d).2.1 := by
  rw [retryAux]
  rcases f k with a | e
  · simp
  · rcases remaining with _ | r
    · simp
    · by_cases h : transient e = true
      · simp [h]
      · simp [h]

/-- C2 (counterexample): the remote service's quota-exhaustion errors are of
the caught exception class but their message does not contain "timed out", so
the wrapper re-raises them on the very first attempt with no retry and no
backoff sleep, contrary to the claim that the transient class (timeout or
quota exhaustion) is retried. -/
theorem C2_quota_not_retried :
    retry_with_backoff 3 2 2
        (fun _ => (CallResult.exc ⟨true, "Quota exceeded"⟩ : CallResult ℕ))
        (fun _ => 0) =
      (CallResult.exc ⟨true, "Quota exceeded"⟩, 1, ([] : List ℝ)) ∧
    transient ⟨true, "Quota exceeded"⟩ = false := by
  have h : transient ⟨true, "Quota exceeded"⟩ = false := by decide
  refine ⟨?_, h⟩
  rw [retry_with_backoff, retryAux]
  simp [h]

/-- C2 (amended): on a first-attempt error, the wrapper retries (sleeping the
current delay plus jitter first) only when the error is of the caught remote
exception class with "timed out" in its message and the retry budget is not
exhausted; any other error — including the service's quota errors — is
re-raised immediately after a single invocation with no sleep. -/
theorem C2_error_classification {α : Type} (m : ℕ) (d b : ℝ) (f : ℕ → CallResult α)
    (j : ℕ → ℝ) (e : Err) (hf : f 0 = CallResult.exc e) :
    (transient e = false → retry_with_backoff m d b f j = (CallResult.exc e, 1, [])) ∧
    (transient e = true → 0 < m →
      (∃ rest, (retry_with_backoff m d b f j).2.2 = (d + j 0) :: rest) ∧
      2 ≤ (retry_with_backoff m d b f j).2.1) := by
  constructor
  · intro ht
    rw [retry_with_backoff, retryAux, hf]
    rcases m with _ | r
    · rfl
    · simp [ht]
  · intro ht hm
    rcases m with _ | r
    · exact absurd hm (by omega)
    · rw [retry_with_backoff, retryAux, hf]
      simp only [ht, if_true]
      refine ⟨⟨(retryAux f j b 1 r (d * b)).2.2, rfl⟩, ?_⟩
      show 2 ≤ (retryAux f j b 1 r (d * b)).2.1 + 1
      have := retryAux_calls_pos f j b 1 r (d * b)
      omega

/-- C2 (witness): a wrapped call that always times out, with max_retries = 3,
is retried: the first sleep is the initial delay plus the first jitter draw,
and the function is invoked at least twice. -/
theorem C2_error_classification_witness :
    (∃ rest, (retry_with_backoff 3 2 2
        (fun _ => (CallResult.exc ⟨true, "error: timed out"⟩ : CallResult ℕ))
        (fun _ => 0)).2.2 = ((2 : ℝ) + 0) :: rest) ∧
    2 ≤ (retry_with_backoff 3 2 2
        (fun _ => (CallResult.exc ⟨true, "error: timed out"⟩ : CallResult ℕ))
        (fun _ => 0)).2.1 :=
  (C2_error_classification 3 2 2
    (fun _ => (CallResult.exc ⟨true, "error: timed out"⟩ : CallResult ℕ))
    (fun _ => 0) ⟨true, "error: timed out"⟩ rfl).2 (by decide) (by decide)

/-- The retry loop on a call that raises the same transient error at every
attempt: it raises that error after remaining + 1 invocations, having slept
delay * backoff^i + jitter before each retry. -/
theorem retryAux_const_exc {α : Type} (e : Err) (he : transient e = true)
    (j : ℕ → ℝ) (b : ℝ) :
    ∀ (remaining k : ℕ) (d : ℝ),
      retryAux (fun _ => (CallResult.exc e : CallResult α)) j b k remaining d =
        (CallResult.exc e, remaining + 1,
          (List.range remaining).map fun i => d * b ^ i + j (k + i)) := by
  intro remaining
  induction remaining with
  | zero => intro k d; rw [retryAux]; simp
  | succ r ih =>
    intro k d
    rw [retryAux]
    simp only [he, if_true, ih (k + 1) (d * b)]
    rw [List.range_succ_eq_map, List.map_cons, List.map_map]
    simp only [Prod.mk.injEq, List.cons.injEq]
    refine ⟨trivial, trivial, by simp, List.map_congr_left fun i _ => ?_⟩
    simp only [Function.comp_apply]
    rw [pow_succ, show k + (i + 1) = k + 1 + i from by omega]
    ring

/-- C7 (confirmed): wrapping a call that raises a transient (caught, timed-out)
error on every attempt, the wrapper invokes it exactly max_retries + 1 times
(so at most max_retries + 1), sleeps initial_delay * backoff_factor^i plus the
i-th jitter draw before retry i, and finally propagates the error unchanged;
when each jitter draw lies in [0, 0.1 * that delay), each suspension lies in
[delay_i, 1.1 * delay_i). -/
theorem C7_retry_exhaustion {α : Type} (m : ℕ) (d b : ℝ) (e : Err) (j : ℕ → ℝ)
    (he : transient e = true)
    (hj : ∀ i, 0 ≤ j i ∧ j i < 0.1 * (d * b ^ i)) :
    retry_with_backoff m d b (fun _ => (CallResult.exc e : CallResult α)) j =
      (CallResult.exc e, m + 1, (List.range m).map fun i => d * b ^ i + j i) ∧
    ∀ i, d * b ^ i ≤ d * b ^ i + j i ∧ d * b ^ i + j i < 1.1 * (d * b ^ i) := by
  constructor
  · rw [retry_with_backoff, retryAux_const_exc e he j b m 0 d]
    simp
  · intro i
    rcases hj i with ⟨h0, h1⟩
    constructor
    · linarith
    · linarith

/-- C7 (witness): with max_retries = 2, initial delay 2, backoff factor 2, zero
jitter and an always-timing-out call, the wrapper makes 3 invocations, sleeps
2 * 2^i before retry i, and propagates the error. -/
theorem C7_retry_exhaustion_witness :
    retry_with_backoff 2 2 2
        (fun _ => (CallResult.exc ⟨true, "timed out"⟩ : CallResult ℕ)) (fun _ => 0) =
      (CallResult.exc ⟨true, "timed out"⟩, 2 + 1,
        (List.range 2).map fun i => 2 * 2 ^ i + 0) :=
  (C7_retry_exhaustion 2 2 2 ⟨true, "timed out"⟩ (fun _ => 0) (by decide)
    (fun i => ⟨le_refl 0, by positivity⟩)).1

/-! ## WindVectorDecoder: wind_direction_to_text (utils.py lines 84-116) -/

/-- Python's float modulo: x % y = x - y * floor(x / y) (result has the sign
of the divisor), over the reals. -/
noncomputable def fmod (x y : ℝ) : ℝ := x - y * (⌊x / y⌋ : ℤ)

/-- The direction table of wind_direction_to_text: (start, end, label). -/
def directions : List (ℝ × ℝ × String) :=
  [(337.5, 360, "North"),
   (0, 22.5, "North"),
   (22.5, 67.5, "Northeast"),
   (67.5, 112.5, "East"),
   (112.5, 157.5, "Southeast"),
   (157.5, 202.5, "South"),
   (202.5, 247.5, "Southwest"),
   (247.5, 292.5, "West"),
   (292.5, 337.5, "Northwest")]

/-- The scan over the direction table: return the first entry whose condition
(start <= d < end) or (start <= d <= end and end == 360) holds, and the
"Unknown" sentinel when no entry matches. -/
noncomputable def findDirection (d : ℝ) : List (ℝ × ℝ × String) → String
  | [] => "Unknown"
  | (s, e, dir) :: rest =>
    if (s ≤ d ∧ d < e) ∨ (s ≤ d ∧ d ≤ e ∧ e = 360) then dir
    else findDirection d rest

/-- Shallow embedding of wind_direction_to_text: normalize the degrees with
% 360, then scan the direction table. -/
noncomputable def wind_direction_to_text (wind_dir_deg : ℝ) : String :=
  findDirection (fmod wind_dir_deg 360) directions

/-- Python % leaves a value already in [0, y) unchanged. -/
theorem fmod_eq_self (x y : ℝ) (h0 : 0 ≤ x) (h1 : x < y) : fmod x y = x := by
  have hy : 0 < y := lt_of_le_of_lt h0 h1
  have : ⌊x / y⌋ = 0 := by
    rw [Int.floor_eq_zero_iff]
    constructor
    · exact div_nonneg h0 hy.le
    · rw [div_lt_one hy]; exact h1
  rw [fmod, this]
  simp

theorem wdt_north_high (d : ℝ) (h1 : 337.5 ≤ d) (h2 : d < 360) :
    wind_direction_to_text d = "North" := by
  rw [wind_direction_to_text, fmod_eq_self d 360 (by linarith) h2]
  rw [directions, findDirection, if_pos (Or.inl ⟨h1, h2⟩)]

theorem wdt_north_low (d : ℝ) (h1 : 0 ≤ d) (h2 : d < 22.5) :
    wind_direction_to_text d = "North" := by
  rw [wind_direction_to_text, fmod_eq_self d 360 h1 (by linarith)]
  rw [directions, findDirection,
    if_neg (by rintro (⟨a, b⟩ | ⟨a, b, c⟩) <;> linarith),
    findDirection, if_pos (Or.inl ⟨h1, h2⟩)]

theorem wdt_northeast (d : ℝ) (h1 : 22.5 ≤ d) (h2 : d < 67.5) :
    wind_direction_to_text d = "Northeast" := by
  rw [wind_direction_to_text, fmod_eq_self d 360 (by linarith) (by linarith)]
  rw [directions, findDirection,
    if_neg (by rintro (⟨a, b⟩ | ⟨a, b, c⟩) <;> linarith),
    findDirection, if_neg (by rintro (⟨a, b⟩ | ⟨a, b, c⟩) <;> linarith),
    findDirection, if_pos (Or.inl ⟨h1, h2⟩)]

theorem wdt_east (d : ℝ) (h1 : 67.5 ≤ d) (h2 : d < 112.5) :
    wind_direction_to_text d = "East" := by
  rw [wind_direction_to_text, fmod_eq_self d 360 (by linarith) (by linarith)]
  rw [directions, findDirection,
    if_neg (by rintro (⟨a, b⟩ | ⟨a, b, c⟩) <;> linarith),
    findDirection, if_neg (by rintro (⟨a, b⟩ | ⟨a, b, c⟩) <;> linarith),
    findDirection, if_neg (by rintro (⟨a, b⟩ | ⟨a, b, c⟩) <;> linarith),
    findDirection, if_pos (Or.inl ⟨h1, h2⟩)]

theorem wdt_southeast (d : ℝ) (h1 : 112.5 ≤ d) (h2 : d < 157.5) :
    wind_direction_to_text d = "Southeast" := by
  rw [wind_direction_to_text, fmod_eq_self d 360 (by linarith) (by linarith)]
  rw [directions, findDirection,
    if_neg (by rintro (⟨a, b⟩ | ⟨a, b, c⟩) <;> linarith),
    findDirection, if_neg (by rintro (⟨a, b⟩ | ⟨a, b, c⟩) <;> linarith),
    findDirection, if_neg (by rintro (⟨a, b⟩ | ⟨a, b, c⟩) <;> linarith),
    findDirection, if_neg (by rintro (⟨a, b⟩ | ⟨a, b, c⟩) <;> linarith),
    findDirection, if_pos (Or.inl ⟨h1, h2⟩)]

theorem wdt_south (d : ℝ) (h1 : 157.5 ≤ d) (h2 : d < 202.5) :
    wind_direction_to_text d = "South" := by
  rw [wind_direction_to_text, fmod_eq_self d 360 (by linarith) (by linarith)]
  rw [directions, findDirection,
    if_neg (by rintro (⟨a, b⟩ | ⟨a, b, c⟩) <;> linarith),
    findDirection, if_neg (by rintro (⟨a, b⟩ | ⟨a, b, c⟩) <;> linarith),
    findDirection, if_neg (by rintro (⟨a, b⟩ | ⟨a, b, c⟩) <;> linarith),
    findDirection, if_neg (by rintro (⟨a, b⟩ | ⟨a, b, c⟩) <;> linarith),
    findDirection, if_neg (by rintro (⟨a, b⟩ | ⟨a, b, c⟩) <;> linarith),
    findDirection, if_pos (Or.inl ⟨h1, h2⟩)]

theorem wdt_southwest (d : ℝ) (h1 : 202.5 ≤ d) (h2 : d < 247.5) :
    wind_direction_to_text d = "Southwest" := by
  rw [wind_direction_to_text, fmod_eq_self d 360 (by linarith) (by linarith)]
  rw [directions, findDirection,
    if_neg (by rintro (⟨a, b⟩ | ⟨a, b, c⟩) <;> linarith),
    findDirection, if_neg (by rintro (⟨a, b⟩ | ⟨a, b, c⟩) <;> linarith),
    findDirection, if_neg (by rintro (⟨a, b⟩ | ⟨a, b, c⟩) <;> linarith),
    findDirection, if_neg (by rintro (⟨a, b⟩ | ⟨a, b, c⟩) <;> linarith),
    findDirection, if_neg (by rintro (⟨a, b⟩ | ⟨a, b, c⟩) <;> linarith),
    findDirection, if_neg (by rintro (⟨a, b⟩ | ⟨a, b, c⟩) <;> linarith),
    findDirection, if_pos (Or.inl ⟨h1, h2⟩)]

theorem wdt_west (d : ℝ) (h1 : 247.5 ≤ d) (h2 : d < 292.5) :
    wind_direction_to_text d = "West" := by
  rw [wind_direction_to_text, fmod_eq_self d 360 (by linarith) (by linarith)]
  rw [directions, findDirection,
    if_neg (by rintro (⟨a, b⟩ | ⟨a, b, c⟩) <;> linarith),
    findDirection, if_neg (by rintro (⟨a, b⟩ | ⟨a, b, c⟩) <;> linarith),
    findDirection, if_neg (by rintro (⟨a, b⟩ | ⟨a, b, c⟩) <;> linarith),
    findDirection, if_neg (by rintro (⟨a, b⟩ | ⟨a, b, c⟩) <;> linarith),
    findDirection, if_neg (by rintro (⟨a, b⟩ | ⟨a, b, c⟩) <;> linarith),
    findDirection, if_neg (by rintro (⟨a, b⟩ | ⟨a, b, c⟩) <;> linarith),
    findDirection, if_neg (by rintro (⟨a, b⟩ | ⟨a, b, c⟩) <;> linarith),
    findDirection, if_pos (Or.inl ⟨h1, h2⟩)]

theorem wdt_northwest (d : ℝ) (h1 : 292.5 ≤ d) (h2 : d < 337.5) :
    wind_direction_to_text d = "Northwest" := by
  rw [wind_direction_to_text, fmod_eq_self d 360 (by linarith) (by linarith)]
  rw [directions, findDirection,
    if_neg (by rintro (⟨a, b⟩ | ⟨a, b, c⟩) <;> linarith),
    findDirection, if_neg (by rintro (⟨a, b⟩ | ⟨a, b, c⟩) <;> linarith),
    findDirection, if_neg (by rintro (⟨a, b⟩ | ⟨a, b, c⟩) <;> linarith),
    findDirection, if_neg (by rintro (⟨a, b⟩ | ⟨a, b, c⟩) <;> linarith),
    findDirection, if_neg (by rintro (⟨a, b⟩ | ⟨a, b, c⟩) <;> linarith),
    findDirection, if_neg (by rintro (⟨a, b⟩ | ⟨a, b, c⟩) <;> linarith),
    findDirection, if_neg (by rintro (⟨a, b⟩ | ⟨a, b, c⟩) <;> linarith),
    findDirection, if_neg (by rintro (⟨a, b⟩ | ⟨a, b, c⟩) <;> linarith),
    findDirection, if_pos (Or.inl ⟨h1, h2⟩)]

/-- A value outside every entry of the direction table (which normalization
makes unreachable) falls through to the "Unknown" sentinel. -/
theorem findDirection_out_of_range (d : ℝ) (h : d < 0 ∨ 360 < d) :
    findDirection d directions = "Unknown" := by
  rcases h with h | h <;>
  · rw [directions, findDirection,
      if_neg (by rintro (⟨a, b⟩ | ⟨a, b, c⟩) <;> linarith),
      findDirection, if_neg (by rintro (⟨a, b⟩ | ⟨a, b, c⟩) <;> linarith),
      findDirection, if_neg (by rintro (⟨a, b⟩ | ⟨a, b, c⟩) <;> linarith),
      findDirection, if_neg (by rintro (⟨a, b⟩ | ⟨a, b, c⟩) <;> linarith),
      findDirection, if_neg (by rintro (⟨a, b⟩ | ⟨a, b, c⟩) <;> linarith),
      findDirection, if_neg (by rintro (⟨a, b⟩ | ⟨a, b, c⟩) <;> linarith),
      findDirection, if_neg (by rintro (⟨a, b⟩ | ⟨a, b, c⟩) <;> linarith),
      findDirection, if_neg (by rintro (⟨a, b⟩ | ⟨a, b, c⟩) <;> linarith),
      findDirection, if_neg (by rintro (⟨a, b⟩ | ⟨a, b, c⟩) <;> linarith),
      findDirection]

/-- C3 (counterexample): the code puts 44.9 degrees in the 22.5-67.5 sector,
so it maps to "Northeast", not to "North" as the claim's boundary list
asserts. -/
theorem C3_boundary_counterexample :
    wind_direction_to_text 44.9 = "Northeast" ∧
    wind_direction_to_text 44.9 ≠ "North" := by
  have h : wind_direction_to_text 44.9 = "Northeast" :=
    wdt_northeast 44.9 (by norm_num) (by norm_num)
  exact ⟨h, by rw [h]; decide⟩

/-- C3 (amended): the cardinal mapping uses 8 sectors of 45 degrees, each
lower-bound inclusive and upper-bound exclusive, with 337.5-360 and 0-22.5
both labelled "North"; in particular 0 -> North, 44.9 -> Northeast (not North,
as 44.9 lies in the 22.5-67.5 sector), 45 -> Northeast, 359.9 -> North,
180 -> South; and a value that matches no entry of the direction table falls
through to the explicit "Unknown" sentinel rather than a cardinal label. -/
theorem C3_cardinal_mapping :
    wind_direction_to_text 0 = "North" ∧
    wind_direction_to_text 44.9 = "Northeast" ∧
    wind_direction_to_text 45 = "Northeast" ∧
    wind_direction_to_text 359.9 = "North" ∧
    wind_direction_to_text 180 = "South" ∧
    (∀ d : ℝ, 0 ≤ d → d < 22.5 → wind_direction_to_text d = "North") ∧
    (∀ d : ℝ, 337.5 ≤ d → d < 360 → wind_direction_to_text d = "North") ∧
    (∀ d : ℝ, 22.5 ≤ d → d < 67.5 → wind_direction_to_text d = "Northeast") ∧
    (∀ d : ℝ, 67.5 ≤ d → d < 112.5 → wind_direction_to_text d = "East") ∧
    (∀ d : ℝ, 112.5 ≤ d → d < 157.5 → wind_direction_to_text d = "Southeast") ∧
    (∀ d : ℝ, 157.5 ≤ d → d < 202.5 → wind_direction_to_text d = "South") ∧
    (∀ d : ℝ, 202.5 ≤ d → d < 247.5 → wind_direction_to_text d = "Southwest") ∧
    (∀ d : ℝ, 247.5 ≤ d → d < 292.5 → wind_direction_to_text d = "West") ∧
    (∀ d : ℝ, 292.5 ≤ d → d < 337.5 → wind_direction_to_text d = "Northwest") ∧
    (∀ d : ℝ, d < 0 ∨ 360 < d → findDirection d directions = "Unknown") := by
  refine ⟨wdt_north_low 0 (by norm_num) (by norm_num),
    wdt_northeast 44.9 (by norm_num) (by norm_num),
    wdt_northeast 45 (by norm_num) (by norm_num),
    wdt_north_high 359.9 (by norm_num) (by norm_num),
    wdt_south 180 (by norm_num) (by norm_num),
    wdt_north_low, wdt_north_high, wdt_northeast, wdt_east, wdt_southeast,
    wdt_south, wdt_southwest, wdt_west, wdt_northwest,
    findDirection_out_of_range⟩

/-- C3 (witness): the sector statements of the amended mapping evaluated at an
interior point: 100 degrees lies in the 67.5-112.5 sector and maps to East. -/
theorem C3_cardinal_mapping_witness : wind_direction_to_text 100 = "East" :=
  C3_cardinal_mapping.2.2.2.2.2.2.2.2.1 100 (by norm_num) (by norm_num)

/-! ## PointSampler and row enrichment: get_weather_data (utils.py lines 192-306)

A DataFrame row is a Row; the remote Earth Engine state relevant to one row
(the size of the date-filtered image collection and the outcome of the
retry-wrapped point sample) is a Remote oracle value. NaN-able numeric cells
are Option ℝ, with NaN as none. -/

/-- Two-argument arctangent, the mathematical function computed by
math.atan2(y, x). -/
noncomputable def atan2 (y x : ℝ) : ℝ :=
  if 0 < x then Real.arctan (y / x)
  else if x < 0 ∧ 0 ≤ y then Real.arctan (y / x) + Real.pi
  else if x < 0 ∧ y < 0 then Real.arctan (y / x) - Real.pi
  else if 0 < y then Real.pi / 2
  else if y < 0 then -(Real.pi / 2)
  else 0

/-- Input record of get_weather_data: the columns it reads from a row, each
nullable (absent / NaN / wrong-typed values are none). -/
structure Row where
  ignition_datetime : Option ℤ
  latitude : Option ℝ
  longitude : Option ℝ
  firelabel : Option String

/-- Outcome of the retry-wrapped point sample for a row: a variable-name to
value dictionary, a null/empty result, or a raised exception (transient after
exhausted retries, or non-transient). -/
inductive SampleOutcome where
  | ok (data : List (String × ℝ))
  | noData
  | err (e : Err)

/-- The remote weather-service state one row's enrichment observes. -/
structure Remote where
  imageCount : ℕ
  sample : SampleOutcome

/-- Output record of get_weather_data (one WeatherObservation). -/
structure Obs where
  temperature_c : Option ℝ
  wind_speed_ms : Option ℝ
  wind_direction_deg : Option ℝ
  wind_direction : String
  humidity_dewpoint_temperature_2m : Option ℝ
  soil_temperature_level_1 : Option ℝ
  fire_label : Option String
  ignition_datetime : Option ℤ

/-- The default observation: every numeric field NaN, the direction text
"No data returned", label and ignition timestamp copied from the row. -/
def default_values (row : Row) : Obs :=
  ⟨none, none, none, "No data returned", none, none,
   row.firelabel, row.ignition_datetime⟩

/-- Python dict lookup data.get(k) over an association-list dictionary. -/
def dictGet (data : List (String × ℝ)) (k : String) : Option ℝ :=
  match data with
  | [] => none
  | (k2, v) :: rest => if k2 = k then some v else dictGet rest k

/-- The u wind component read by the source: data.get(u-key, 0). -/
def uWind (data : List (String × ℝ)) : ℝ :=
  (dictGet data "u_component_of_wind_10m").getD 0

/-- The v wind component read by the source: data.get(v-key, 0). -/
def vWind (data : List (String × ℝ)) : ℝ :=
  (dictGet data "v_component_of_wind_10m").getD 0

/-- The wind-direction formula of the source: 0 for calm wind, otherwise
(270 - (180 / 3.14159) * atan2(v, u)) % 360 — the source divides by the
literal 3.14159, not by pi. -/
noncomputable def windDirDeg (u v : ℝ) : ℝ :=
  if u = 0 ∧ v = 0 then 0
  else fmod (270 - (180 / 3.14159) * atan2 v u) 360

/-- Shallow embedding of get_weather_data: validate the row, query the image
collection, sample the point, and decode the wind vector; every failure path
returns the default observation. Exceptions raised by the sample (Earth
Engine or otherwise) are caught by the inner/outer except blocks, so the
function is total. The source's (u**2 + v**2)**0.5 is Real.sqrt. -/
noncomputable def get_weather_data (row : Row) (rem : Remote) : Obs :=
  match row.ignition_datetime, row.latitude, row.longitude with
  | some _, some _, some _ =>
    if rem.imageCount = 0 then default_values row
    else
      match rem.sample with
      | SampleOutcome.err _ => default_values row
      | SampleOutcome.noData => default_values row
      | SampleOutcome.ok data =>
        if data.isEmpty then default_values row
        else
          ⟨(dictGet data "temperature_2m").map (fun k => k - 273.15),
           some (Real.sqrt (uWind data ^ 2 + vWind data ^ 2)),
           some (windDirDeg (uWind data) (vWind data)),
           wind_direction_to_text (windDirDeg (uWind data) (vWind data)),
           dictGet data "dewpoint_temperature_2m",
           dictGet data "soil_temperature_level_1",
           row.firelabel, row.ignition_datetime⟩
  | _, _, _ => default_values row

/-- Modelled from the spec: the wind-direction formula as the spec states it,
(270 - (180 / pi) * atan2(v, u)) mod 360, with the exact constant pi. Kept
separate from windDirDeg for the refinement comparison of claim C4. -/
noncomputable def wind_dir_spec (v u : ℝ) : ℝ :=
  fmod (270 - (180 / Real.pi) * atan2 v u) 360

/-- The concrete row of the C4 counterexample: all inputs valid. -/
def row4 : Row := ⟨some 0, some 50, some (-120), some "F1"⟩

/-- The concrete remote state of the C4 counterexample: one image, and a
sample with wind blowing along the negative x axis (u = -1, v = 0). -/
def remote4 : Remote :=
  ⟨1, SampleOutcome.ok [("u_component_of_wind_10m", -1),
                        ("v_component_of_wind_10m", 0)]⟩

theorem atan2_zero_neg_one : atan2 0 (-1) = Real.pi := by
  rw [atan2]
  rw [if_neg (by norm_num), if_pos (by norm_num)]
  norm_num

/-- C4 (counterexample): at u = -1, v = 0 the spec formula with pi yields
exactly 90 degrees, but the code divides by the literal 3.14159, so the stored
wind_direction_deg is strictly below 90: the claim's formula with pi does not
describe the code. -/
theorem C4_pi_counterexample :
    wind_dir_spec 0 (-1) = 90 ∧
    (get_weather_data row4 remote4).wind_direction_deg ≠ some (wind_dir_spec 0 (-1)) := by
  have hpi : (180 : ℝ) / Real.pi * Real.pi = 180 :=
    div_mul_cancel₀ 180 Real.pi_ne_zero
  have hspec : wind_dir_spec 0 (-1) = 90 := by
    rw [wind_dir_spec, atan2_zero_neg_one, hpi]
    norm_num
    rw [fmod_eq_self 90 360 (by norm_num) (by norm_num)]
  refine ⟨hspec, ?_⟩
  have hlow : (3.141592 : ℝ) < Real.pi := Real.pi_gt_d6
  have hhigh : Real.pi < 3.15 := Real.pi_lt_d2
  have hval : (270 : ℝ) - 180 / 3.14159 * Real.pi < 90 := by
    have : (180 : ℝ) < 180 / 3.14159 * Real.pi := by
      have h1 : (180 : ℝ) / 3.14159 * 3.141592 > 180 := by norm_num
      have h2 : (180 : ℝ) / 3.14159 * 3.141592 < 180 / 3.14159 * Real.pi := by
        have : (0 : ℝ) < 180 / 3.14159 := by norm_num
        exact (mul_lt_mul_left this).mpr hlow
      linarith
    linarith
  have hval2 : (89 : ℝ) < 270 - 180 / 3.14159 * Real.pi := by
    have : (180 : ℝ) / 3.14159 * Real.pi < 180 / 3.14159 * 3.15 := by
      have : (0 : ℝ) < 180 / 3.14159 := by norm_num
      exact (mul_lt_mul_left this).mpr hhigh
    have h3 : (180 : ℝ) / 3.14159 * 3.15 < 181 := by norm_num
    linarith
  have hcode : (get_weather_data row4 remote4).wind_direction_deg =
      some (windDirDeg (-1) 0) := by
    have hu : uWind [("u_component_of_wind_10m", -1), ("v_component_of_wind_10m", 0)]
        = -1 := by rw [uWind, dictGet, if_pos rfl]; rfl
    have hv : vWind [("u_component_of_wind_10m", -1), ("v_component_of_wind_10m", 0)]
        = 0 := by
      rw [vWind, dictGet, if_neg (by decide), dictGet, if_pos rfl]; rfl
    rw [row4, remote4, get_weather_data]
    simp only [hu, hv]
    norm_num
  rw [hcode, hspec]
  have hdir : windDirDeg (-1) 0 = fmod (270 - 180 / 3.14159 * Real.pi) 360 := by
    rw [windDirDeg, if_neg (by norm_num), atan2_zero_neg_one]
  have hfm : fmod (270 - 180 / 3.14159 * Real.pi) 360
      = 270 - 180 / 3.14159 * Real.pi :=
    fmod_eq_self _ 360 (by linarith) (by linarith)
  rw [hdir, hfm]
  intro hcontra
  have := Option.some_injective ℝ hcontra
  linarith

/-- Evaluation of the success path of get_weather_data: with a valid row, a
non-empty filtered collection and a non-empty sampled dictionary, the function
builds the enriched observation record. -/
theorem get_weather_data_ok (row : Row) (rem : Remote) (data : List (String × ℝ))
    (t : ℤ) (la lo : ℝ)
    (hts : row.ignition_datetime = some t) (hla : row.latitude = some la)
    (hlo : row.longitude = some lo) (himg : rem.imageCount ≠ 0)
    (hs : rem.sample = SampleOutcome.ok data) (hne : data.isEmpty = false) :
    get_weather_data row rem =
      ⟨(dictGet data "temperature_2m").map (fun k => k - 273.15),
       some (Real.sqrt (uWind data ^ 2 + vWind data ^ 2)),
       some (windDirDeg (uWind data) (vWind data)),
       wind_direction_to_text (windDirDeg (uWind data) (vWind data)),
       dictGet data "dewpoint_temperature_2m",
       dictGet data "soil_temperature_level_1",
       row.firelabel, row.ignition_datetime⟩ := by
  simp only [get_weather_data, hts, hla, hlo, hs]
  rw [if_neg himg]
  simp [hne]

/-- A row whose retry-wrapped sample returns no data yields the default
observation, whatever the rest of the row and remote state look like. -/
theorem get_weather_data_noData (row : Row) (rem : Remote)
    (h : rem.sample = SampleOutcome.noData) :
    get_weather_data row rem = default_values row := by
  rcases row with ⟨ts, la, lo, fl⟩
  rcases ts with _ | t <;> rcases la with _ | lav <;> rcases lo with _ | lov <;>
    by_cases hn : rem.imageCount = 0 <;> simp [get_weather_data, h, hn]

/-- A row with missing coordinates yields the default observation. -/
theorem get_weather_data_noCoords (row : Row) (rem : Remote)
    (h : row.latitude = none) :
    get_weather_data row rem = default_values row := by
  rcases row with ⟨ts, la, lo, fl⟩
  rcases ts with _ | t <;> rcases lo with _ | lov <;> simp_all [get_weather_data]

/-- C4 (amended): on the success path the observation carries
wind_speed = sqrt(u^2 + v^2); wind_direction_deg is 0 when u = v = 0 and
otherwise (270 - (180 / 3.14159) * atan2(v, u)) % 360 — the source divides by
the literal 3.14159 rather than by pi; temperature_c is the Kelvin value minus
273.15 when present and stays null when absent. u and v are the sampled wind
components, defaulting to 0 when their key is missing. -/
theorem C4_derived_fields (row : Row) (rem : Remote) (data : List (String × ℝ))
    (t : ℤ) (la lo : ℝ)
    (hts : row.ignition_datetime = some t) (hla : row.latitude = some la)
    (hlo : row.longitude = some lo) (himg : rem.imageCount ≠ 0)
    (hs : rem.sample = SampleOutcome.ok data) (hne : data.isEmpty = false) :
    (get_weather_data row rem).wind_speed_ms =
      some (Real.sqrt (uWind data ^ 2 + vWind data ^ 2)) ∧
    (get_weather_data row rem).wind_direction_deg =
      some (windDirDeg (uWind data) (vWind data)) ∧
    (uWind data = 0 ∧ vWind data = 0 → windDirDeg (uWind data) (vWind data) = 0) ∧
    (¬(uWind data = 0 ∧ vWind data = 0) →
      windDirDeg (uWind data) (vWind data) =
        fmod (270 - (180 / 3.14159) * atan2 (vWind data) (uWind data)) 360) ∧
    (∀ k : ℝ, dictGet data "temperature_2m" = some k →
      (get_weather_data row rem).temperature_c = some (k - 273.15)) ∧
    (dictGet data "temperature_2m" = none →
      (get_weather_data row rem).temperature_c = none) := by
  have hrec := get_weather_data_ok row rem data t la lo hts hla hlo himg hs hne
  rw [hrec]
  refine ⟨rfl, rfl, ?_, ?_, ?_, ?_⟩
  · intro h; rw [windDirDeg, if_pos h]
  · intro h; rw [windDirDeg, if_neg h]
  · intro k hk; simp [hk]
  · intro hk; simp [hk]

/-- The sampled dictionary of the C4 witness. -/
def data4w : List (String × ℝ) :=
  [("u_component_of_wind_10m", 1), ("v_component_of_wind_10m", 2),
   ("temperature_2m", 300)]

/-- C4 (witness): the amended derived-fields statement applied to a concrete
valid row and sample. -/
theorem C4_derived_fields_witness :
    (get_weather_data ⟨some 0, some 1, some 2, none⟩
        ⟨1, SampleOutcome.ok data4w⟩).wind_speed_ms =
      some (Real.sqrt (uWind data4w ^ 2 + vWind data4w ^ 2)) :=
  (C4_derived_fields ⟨some 0, some 1, some 2, none⟩ ⟨1, SampleOutcome.ok data4w⟩
    data4w 0 1 2 rfl rfl rfl (by decide) rfl rfl).1

/-- C8 (confirmed): get_weather_data is total (the embedding returns an
observation for every input; the source wraps the body in catch-all except
blocks), and on every listed failure condition — invalid timestamp, missing
coordinate, empty query window, null or empty sample, or a raised remote
error (transient after exhausted retries, or non-transient) — it returns the
default observation; the row's label and ignition timestamp are preserved in
every case. -/
theorem C8_row_containment (row : Row) (rem : Remote) :
    ((row.ignition_datetime = none ∨ row.latitude = none ∨ row.longitude = none ∨
      rem.imageCount = 0 ∨ rem.sample = SampleOutcome.noData ∨
      (∃ e, rem.sample = SampleOutcome.err e) ∨
      rem.sample = SampleOutcome.ok []) →
      get_weather_data row rem = default_values row) ∧
    (get_weather_data row rem).fire_label = row.firelabel ∧
    (get_weather_data row rem).ignition_datetime = row.ignition_datetime := by
  rcases row with ⟨ts, la, lo, fl⟩
  rcases rem with ⟨n, s⟩
  rcases ts with _ | t
  · simp [get_weather_data, default_values]
  rcases la with _ | lav
  · simp [get_weather_data, default_values]
  rcases lo with _ | lov
  · simp [get_weather_data, default_values]
  rcases s with data | _ | e
  · by_cases hn : n = 0
    · subst hn; simp [get_weather_data, default_values]
    · by_cases hd : data.isEmpty = true
      · have hdata : data = [] := List.isEmpty_iff.mp hd
        subst hdata
        simp [get_weather_data, default_values, hn]
      · refine ⟨fun h => ?_, ?_, ?_⟩
        · exfalso
          rcases h with h | h | h | h | h | ⟨e2, h⟩ | h <;> simp_all
        · simp [get_weather_data, hn, hd]
        · simp [get_weather_data, hn, hd]
  · by_cases hn : n = 0 <;> simp [get_weather_data, default_values, hn]
  · by_cases hn : n = 0 <;> simp [get_weather_data, default_values, hn]

/-- C8 (witness): a row with an invalid ignition timestamp degrades to the
default observation. -/
theorem C8_row_containment_witness :
    get_weather_data ⟨none, some 0, some 0, some "F1"⟩ ⟨1, SampleOutcome.noData⟩ =
      default_values ⟨none, some 0, some 0, some "F1"⟩ :=
  (C8_row_containment ⟨none, some 0, some 0, some "F1"⟩ ⟨1, SampleOutcome.noData⟩).1
    (Or.inl rfl)

/-- The row of the C10 counterexample: all inputs valid. -/
def row10 : Row := ⟨some 0, some 50, some (-120), none⟩

/-- The remote state of the C10 counterexample: non-empty sample that lacks
only the u component; v is present and equals 3. -/
def remote10 : Remote := ⟨1, SampleOutcome.ok [("v_component_of_wind_10m", 3)]⟩

/-- C10 (counterexample): for a sampled record lacking only the u key (with
v = 3) the claim asserts wind_speed_ms = 0; the code substitutes 0 for u
alone and reports wind_speed_ms = sqrt(0 + 9) = 3. -/
theorem C10_missing_component_counterexample :
    (get_weather_data row10 remote10).wind_speed_ms = some 3 ∧
    (get_weather_data row10 remote10).wind_speed_ms ≠ some 0 := by
  have hu : uWind [("v_component_of_wind_10m", 3)] = 0 := by
    rw [uWind, dictGet, if_neg (by decide), dictGet]; rfl
  have hv : vWind [("v_component_of_wind_10m", 3)] = 3 := by
    rw [vWind, dictGet, if_pos rfl]; rfl
  have h : (get_weather_data row10 remote10).wind_speed_ms =
      some (Real.sqrt ((0 : ℝ) ^ 2 + 3 ^ 2)) := by
    have hrec := get_weather_data_ok row10 remote10 [("v_component_of_wind_10m", 3)]
      0 50 (-120) rfl rfl rfl (by decide) rfl rfl
    rw [hrec, hu, hv]
  have hsqrt : Real.sqrt ((0 : ℝ) ^ 2 + 3 ^ 2) = 3 := by
    rw [show ((0 : ℝ) ^ 2 + 3 ^ 2) = 3 ^ 2 by norm_num]
    exact Real.sqrt_sq (by norm_num)
  rw [h, hsqrt]
  exact ⟨rfl, by norm_num⟩

/-- C10 (amended): when a non-empty sampled record lacks both wind-component
keys, get_weather_data substitutes 0 for each of them and reports
wind_speed_ms = 0, wind_direction_deg = 0 and wind_direction "North", as if
calm wind had been observed, rather than leaving the wind fields null or
returning the default no-data observation; when only one key is missing, only
that component is zeroed and the other fields follow the usual formulas. -/
theorem C10_both_components_missing (row : Row) (rem : Remote)
    (data : List (String × ℝ)) (t : ℤ) (la lo : ℝ)
    (hts : row.ignition_datetime = some t) (hla : row.latitude = some la)
    (hlo : row.longitude = some lo) (himg : rem.imageCount ≠ 0)
    (hs : rem.sample = SampleOutcome.ok data) (hne : data.isEmpty = false)
    (hu : dictGet data "u_component_of_wind_10m" = none)
    (hv : dictGet data "v_component_of_wind_10m" = none) :
    (get_weather_data row rem).wind_speed_ms = some 0 ∧
    (get_weather_data row rem).wind_direction_deg = some 0 ∧
    (get_weather_data row rem).wind_direction = "North" := by
  have hu0 : uWind data = 0 := by rw [uWind, hu]; rfl
  have hv0 : vWind data = 0 := by rw [vWind, hv]; rfl
  have hdir : windDirDeg (uWind data) (vWind data) = 0 := by
    rw [hu0, hv0, windDirDeg, if_pos ⟨rfl, rfl⟩]
  have hrec := get_weather_data_ok row rem data t la lo hts hla hlo himg hs hne
  rw [hrec]
  refine ⟨?_, ?_, ?_⟩
  · show some (Real.sqrt (uWind data ^ 2 + vWind data ^ 2)) = some 0
    rw [hu0, hv0]
    norm_num
  · show some (windDirDeg (uWind data) (vWind data)) = some 0
    rw [hdir]
  · show wind_direction_to_text (windDirDeg (uWind data) (vWind data)) = "North"
    rw [hdir]
    exact wdt_north_low 0 le_rfl (by norm_num)

/-- C10 (witness): the amended statement applied to a concrete non-empty
sample containing only a temperature. -/
theorem C10_both_components_missing_witness :
    (get_weather_data ⟨some 0, some 1, some 2, none⟩
        ⟨1, SampleOutcome.ok [("temperature_2m", 280)]⟩).wind_direction = "North" :=
  (C10_both_components_missing ⟨some 0, some 1, some 2, none⟩
    ⟨1, SampleOutcome.ok [("temperature_2m", 280)]⟩ [("temperature_2m", 280)]
    0 1 2 rfl rfl rfl (by decide) rfl rfl (by rw [dictGet, if_neg (by decide), dictGet])
    (by rw [dictGet, if_neg (by decide), dictGet])).2.2

/-! ## BatchOrchestrator and ResultSink: process_dataframe (utils.py lines 419-489)

The DataFrame is a list of Rows; time.sleep calls, checkpoint saves and
skip reports are recorded in an explicit trace. -/

/-- Sort key used by sort_values("ignition_datetime"); every row that reaches
the sort has a present timestamp. -/
def sortKey (r : Row) : ℤ := r.ignition_datetime.getD 0

/-- The normalization step df[df["ignition_datetime"].notna()].sort_values(...):
drop rows with an absent timestamp, then sort ascending by timestamp
(modelled with a stable insertion sort; no claim depends on tie order). -/
def normalize (df : List Row) : List Row :=
  List.insertionSort (fun a b => sortKey a ≤ sortKey b)
    (df.filter fun r => r.ignition_datetime.isSome)

/-- The batch slices df.iloc[i:i+batch_size] for i = 0, bs, 2*bs, ...:
contiguous chunks of size bs, the last possibly shorter. -/
def chunk {α : Type} (bs : ℕ) : List α → List (List α)
  | [] => []
  | x :: xs => (x :: xs.take (bs - 1)) :: chunk bs (xs.drop (bs - 1))
termination_by l => l.length
decreasing_by simp only [List.length_drop, List.length_cons]; omega

/-- Total batch count of the source: (len(df) + batch_size - 1) // batch_size. -/
def totalBatches (n bs : ℕ) : ℕ := (n + bs - 1) / bs

/-- Applying get_weather_data to each row of one batch. -/
noncomputable def batchObs (o : Row → Remote) (b : List Row) : List Obs :=
  b.map fun r => get_weather_data r (o r)

/-- The skip test of the source: value_counts of the temperature_c column is
empty, i.e. the batch has no non-null temperature (an empty batch, whose
expanded frame has no temperature_c column at all, trivially passes too). -/
def batchFailed (obs : List Obs) : Bool :=
  obs.all fun x => x.temperature_c.isNone

/-- Checkpoint filename written for a persisted batch. -/
def checkpointName (k total : ℕ) : String :=
  "weather_data_batch_" ++ toString k ++ "_of_" ++ toString total ++ ".csv"

/-- Observable events of one pipeline run: persisted checkpoints (filename
and batch observations, in order), performed sleeps (durations, in order),
and the batch numbers reported as skipped. -/
structure PipelineTrace where
  checkpoints : List (String × List Obs)
  sleeps : List ℝ
  skipped : List ℕ

/-- Result of process_dataframe: the concatenated observations of the
persisted batches, or — when no batch succeeded — the normalized input
returned unchanged together with the "No weather data to process" warning. -/
inductive PipelineResult where
  | enriched (obs : List Obs)
  | unenriched (rows : List Row)

/-- The batch loop of process_dataframe, processing the k-th and following
batches. A failed batch is reported as skipped and the loop continues
directly with the next batch: the source's continue skips the checkpoint
save AND the inter-batch sleep. A succeeded batch is checkpointed and, when
it is not the last one (k < total), followed by one sleep of batch_delay. -/
noncomputable def processBatches (o : Row → Remote) (total : ℕ) (delay : ℝ) :
    List (List Row) → ℕ → List (List Obs) × PipelineTrace
  | [], _ => ([], ⟨[], [], []⟩)
  | b :: rest, k =>
    if batchFailed (batchObs o b) then
      ((processBatches o total delay rest (k + 1)).1,
       ⟨(processBatches o total delay rest (k + 1)).2.checkpoints,
        (processBatches o total delay rest (k + 1)).2.sleeps,
        k :: (processBatches o total delay rest (k + 1)).2.skipped⟩)
    else
      (batchObs o b :: (processBatches o total delay rest (k + 1)).1,
       ⟨(checkpointName k total, batchObs o b) ::
          (processBatches o total delay rest (k + 1)).2.checkpoints,
        (if k < total then [delay] else []) ++
          (processBatches o total delay rest (k + 1)).2.sleeps,
        (processBatches o total delay rest (k + 1)).2.skipped⟩)

/-- One full run of the batch loop over the normalized, chunked input. -/
noncomputable def pipelineRun (o : Row → Remote) (df : List Row)
    (batch_size : ℕ) (batch_delay : ℝ) : List (List Obs) × PipelineTrace :=
  processBatches o (totalBatches (normalize df).length batch_size) batch_delay
    (chunk batch_size (normalize df)) 1

/-- Shallow embedding of process_dataframe: normalize, chunk, run the batch
loop; concatenate the persisted batches, or return the normalized input
unchanged when every batch was skipped. -/
noncomputable def process_dataframe (o : Row → Remote) (df : List Row)
    (batch_size : ℕ) (batch_delay : ℝ) : PipelineResult × PipelineTrace :=
  if (pipelineRun o df batch_size batch_delay).1.isEmpty then
    (PipelineResult.unenriched (normalize df),
     (pipelineRun o df batch_size batch_delay).2)
  else
    (PipelineResult.enriched (pipelineRun o df batch_size batch_delay).1.flatten,
     (pipelineRun o df batch_size batch_delay).2)

/-- The nil equation of chunk. -/
theorem chunk_nil {α : Type} (bs : ℕ) : chunk bs ([] : List α) = [] := by
  rw [chunk.eq_def]

/-- The cons equation of chunk. -/
theorem chunk_cons {α : Type} (bs : ℕ) (x : α) (xs : List α) :
    chunk bs (x :: xs) = (x :: xs.take (bs - 1)) :: chunk bs (xs.drop (bs - 1)) := by
  rw [chunk.eq_def]

/-- C5 (amended): before moving past a batch that is not the last one, the
orchestrator sleeps batch_delay only when the batch was persisted; a batch
that failed the temperature check is skipped with no inter-batch delay (the
continue statement jumps over the sleep), and after the last batch no delay
is performed either. -/
theorem C5_inter_batch_pacing (o : Row → Remote) (total : ℕ) (delay : ℝ)
    (b : List Row) (rest : List (List Row)) (k : ℕ) :
    (processBatches o total delay (b :: rest) k).2.sleeps =
      (if batchFailed (batchObs o b) then []
       else if k < total then [delay] else []) ++
      (processBatches o total delay rest (k + 1)).2.sleeps := by
  rw [processBatches]
  by_cases h : batchFailed (batchObs o b) = true
  · simp [h]
  · simp only [Bool.not_eq_true] at h
    simp [h]

/-- First row of the C5 counterexample run: valid timestamp, missing
coordinates, so its enrichment defaults and its singleton batch fails. -/
def row5a : Row := ⟨some 0, none, none, none⟩

/-- Second row of the C5 counterexample run: fully valid. -/
def row5b : Row := ⟨some 1, some 0, some 0, none⟩

/-- Remote oracle of the C5 counterexample: every sample succeeds with a
temperature reading. -/
def oracle5 : Row → Remote :=
  fun _ => ⟨1, SampleOutcome.ok [("temperature_2m", 280)]⟩

/-- C5 (counterexample): a run with two batches in which batch 1 fails and is
skipped performs no suspension at all — in particular none after non-last
batch 1 — whereas the claim requires an inter_batch_delay suspension after
every non-last batch, skipped or not. -/
theorem C5_skipped_batch_no_delay :
    (chunk 1 (normalize [row5a, row5b])).length = 2 ∧
    (process_dataframe oracle5 [row5a, row5b] 1 3).2.skipped = [1] ∧
    (process_dataframe oracle5 [row5a, row5b] 1 3).2.sleeps = [] := by
  have hnorm : normalize [row5a, row5b] = [row5a, row5b] := by
    norm_num [normalize, row5a, row5b, sortKey, List.insertionSort,
      List.orderedInsert]
  have hchunk : chunk 1 ([row5a, row5b] : List Row) = [[row5a], [row5b]] := by
    rw [chunk_cons]
    simp only [Nat.sub_self, List.take_zero, List.drop_zero]
    rw [chunk_cons]
    simp only [Nat.sub_self, List.take_zero, List.drop_zero, chunk_nil]
  have hfail1 : batchFailed (batchObs oracle5 [row5a]) = true := by
    have h := get_weather_data_noCoords row5a (oracle5 row5a) rfl
    simp [batchFailed, batchObs, h, default_values]
  have hfail2 : batchFailed (batchObs oracle5 [row5b]) = false := by
    have h := get_weather_data_ok row5b (oracle5 row5b) [("temperature_2m", 280)]
      1 0 0 rfl rfl rfl (by decide) rfl rfl
    simp [batchFailed, batchObs, h, dictGet]
  have hrun : pipelineRun oracle5 [row5a, row5b] 1 3 =
      ([batchObs oracle5 [row5b]],
       ⟨[(checkpointName 2 2, batchObs oracle5 [row5b])], [], [1]⟩) := by
    rw [pipelineRun, hnorm]
    rw [show totalBatches ([row5a, row5b] : List Row).length 1 = 2 from rfl]
    rw [hchunk]
    rw [processBatches, if_pos hfail1]
    rw [processBatches, if_neg (by rw [hfail2]; exact Bool.false_ne_true)]
    rw [processBatches]
    norm_num
  refine ⟨by rw [hnorm, hchunk]; rfl, ?_, ?_⟩ <;>
  · rw [process_dataframe, hrun]
    norm_num

/-- Every element of every chunk of l is an element of l (length-bounded
induction matching the recursion of chunk). -/
theorem chunk_subset_aux {α : Type} (bs : ℕ) :
    ∀ (n : ℕ) (l : List α), l.length ≤ n →
      ∀ b ∈ chunk bs l, ∀ r ∈ b, r ∈ l := by
  intro n
  induction n with
  | zero =>
    intro l hl b hb r hr
    have hnil : l = [] := List.eq_nil_of_length_eq_zero (by omega)
    subst hnil
    rw [chunk_nil] at hb
    simp at hb
  | succ n ih =>
    intro l hl b hb r hr
    cases l with
    | nil => rw [chunk_nil] at hb; simp at hb
    | cons x xs =>
      rw [chunk_cons] at hb
      rcases List.mem_cons.mp hb with h | h
      · subst h
        rcases List.mem_cons.mp hr with h | h
        · exact List.mem_cons.mpr (Or.inl h)
        · exact List.mem_cons_of_mem x (List.take_subset (bs - 1) xs h)
      · have hlen : (xs.drop (bs - 1)).length ≤ n := by
          simp only [List.length_cons] at hl
          simp only [List.length_drop]
          omega
        exact List.mem_cons_of_mem x
          (List.drop_subset (bs - 1) xs (ih (xs.drop (bs - 1)) hlen b h r hr))

/-- Every element of every chunk of l is an element of l. -/
theorem chunk_subset {α : Type} (bs : ℕ) (l : List α) (b : List α)
    (hb : b ∈ chunk bs l) (r : α) (hr : r ∈ b) : r ∈ l :=
  chunk_subset_aux bs l.length l le_rfl b hb r hr

/-- A run of the batch loop in which every batch fails persists nothing and
returns no observations. -/
theorem processBatches_all_failed (o : Row → Remote) (total : ℕ) (delay : ℝ) :
    ∀ (batches : List (List Row)) (k : ℕ),
      (∀ b ∈ batches, batchFailed (batchObs o b) = true) →
      (processBatches o total delay batches k).1 = [] ∧
      (processBatches o total delay batches k).2.checkpoints = [] := by
  intro batches
  induction batches with
  | nil => intro k h; rw [processBatches]; exact ⟨rfl, rfl⟩
  | cons b rest ih =>
    intro k h
    rw [processBatches, if_pos (h b (List.mem_cons_self b rest))]
    exact ih (k + 1) fun b2 hb2 => h b2 (List.mem_cons_of_mem b hb2)

/-- C9 (confirmed): when every row of the normalized input enriches to a
null-temperature observation — so that every batch is classified FAILED —
process_dataframe persists no checkpoint and returns the normalized
(timestamp-filtered, sorted, unenriched) input unchanged, signalling the
nothing-could-be-enriched condition through the unenriched result instead of
raising. -/
theorem C9_total_pipeline_failure (o : Row → Remote) (df : List Row)
    (bs : ℕ) (delay : ℝ)
    (h : ∀ r ∈ normalize df, (get_weather_data r (o r)).temperature_c = none) :
    (process_dataframe o df bs delay).1 =
      PipelineResult.unenriched (normalize df) ∧
    (process_dataframe o df bs delay).2.checkpoints = [] := by
  have hall : ∀ b ∈ chunk bs (normalize df), batchFailed (batchObs o b) = true := by
    intro b hb
    apply List.all_eq_true.mpr
    intro x hx
    rcases List.mem_map.mp hx with ⟨r, hr, hxr⟩
    subst hxr
    rw [h r (chunk_subset bs (normalize df) b hb r hr)]
    rfl
  have hrun := processBatches_all_failed o (totalBatches (normalize df).length bs)
    delay (chunk bs (normalize df)) 1 hall
  have h1 : (pipelineRun o df bs delay).1 = [] := hrun.1
  have h2 : (pipelineRun o df bs delay).2.checkpoints = [] := hrun.2
  rw [process_dataframe, h1]
  exact ⟨by norm_num, by norm_num [h2]⟩

/-- The single row of the C9 witness run: valid timestamp, no coordinates. -/
def row9 : Row := ⟨some 0, none, none, none⟩

/-- C9 (witness): a one-row pipeline whose only batch fails returns the
normalized input unchanged. -/
theorem C9_total_pipeline_failure_witness :
    (process_dataframe (fun _ => ⟨1, SampleOutcome.noData⟩) [row9] 50 3).1 =
      PipelineResult.unenriched (normalize [row9]) :=
  (C9_total_pipeline_failure (fun _ => ⟨1, SampleOutcome.noData⟩) [row9] 50 3
    (by
      intro r hr
      rw [get_weather_data_noData r _ rfl]
      rfl)).1

/-- For a positive batch size, chunking splits off the first batch_size
elements. -/
theorem chunk_eq_take_drop {α : Type} (bs : ℕ) (hbs : 0 < bs) (l : List α)
    (hl : l ≠ []) : chunk bs l = l.take bs :: chunk bs (l.drop bs) := by
  cases l with
  | nil => exact absurd rfl hl
  | cons x xs =>
    cases bs with
    | zero => omega
    | succ b =>
      rw [chunk_cons]
      simp

/-- C6 (confirmed): with 120 normalized events and batch_size 50 the pipeline
forms 3 batches of sizes 50/50/20; when every row of batch 2 enriches to a
null temperature while batches 1 and 3 each have a usable row, batch 2
produces no checkpoint and contributes no rows, the subsequent batch is still
processed, and the final result is the 70 observations of batches 1 and 3
with batch 2 reported as skipped. -/
theorem C6_batch_isolation (o : Row → Remote) (df : List Row) (delay : ℝ)
    (hlen : (normalize df).length = 120)
    (h2 : ∀ r ∈ ((normalize df).drop 50).take 50,
      (get_weather_data r (o r)).temperature_c = none)
    (h1 : ∃ r ∈ (normalize df).take 50,
      (get_weather_data r (o r)).temperature_c ≠ none)
    (h3 : ∃ r ∈ (normalize df).drop 100,
      (get_weather_data r (o r)).temperature_c ≠ none) :
    (chunk 50 (normalize df)).map List.length = [50, 50, 20] ∧
    (process_dataframe o df 50 delay).1 =
      PipelineResult.enriched
        (batchObs o ((normalize df).take 50) ++
         batchObs o ((normalize df).drop 100)) ∧
    (batchObs o ((normalize df).take 50) ++
      batchObs o ((normalize df).drop 100)).length = 70 ∧
    (process_dataframe o df 50 delay).2.skipped = [2] ∧
    (process_dataframe o df 50 delay).2.checkpoints.map Prod.fst =
      [checkpointName 1 3, checkpointName 3 3] := by
  set l := normalize df with hldef
  have hne1 : l ≠ [] := by
    intro hcon; rw [hcon] at hlen; simp at hlen
  have hlen1 : (l.drop 50).length = 70 := by rw [List.length_drop, hlen]
  have hne2 : l.drop 50 ≠ [] := by
    intro hcon; rw [hcon] at hlen1; simp at hlen1
  have hdd : (l.drop 50).drop 50 = l.drop 100 := by
    rw [List.drop_drop]
  have hlen2 : (l.drop 100).length = 20 := by rw [List.length_drop, hlen]
  have hne3 : l.drop 100 ≠ [] := by
    intro hcon; rw [hcon] at hlen2; simp at hlen2
  have htake3 : (l.drop 100).take 50 = l.drop 100 :=
    List.take_of_length_le (by rw [hlen2]; norm_num)
  have hdrop3 : (l.drop 100).drop 50 = [] :=
    List.drop_eq_nil_of_le (by rw [hlen2]; norm_num)
  have hchunk : chunk 50 l = [l.take 50, (l.drop 50).take 50, l.drop 100] := by
    rw [chunk_eq_take_drop 50 (by norm_num) l hne1,
        chunk_eq_take_drop 50 (by norm_num) (l.drop 50) hne2, hdd,
        chunk_eq_take_drop 50 (by norm_num) (l.drop 100) hne3,
        htake3, hdrop3, chunk_nil]
  have htot : totalBatches l.length 50 = 3 := by rw [hlen]; rfl
  have hfail2 : batchFailed (batchObs o ((l.drop 50).take 50)) = true := by
    apply List.all_eq_true.mpr
    intro x hx
    rcases List.mem_map.mp hx with ⟨r, hr, hxr⟩
    subst hxr
    rw [h2 r hr]
    rfl
  have hsucc1 : batchFailed (batchObs o (l.take 50)) = false := by
    obtain ⟨r, hr, hne⟩ := h1
    apply List.all_eq_false.mpr
    exact ⟨get_weather_data r (o r), List.mem_map_of_mem _ hr,
      fun hT => hne (Option.isNone_iff_eq_none.mp hT)⟩
  have hsucc3 : batchFailed (batchObs o (l.drop 100)) = false := by
    obtain ⟨r, hr, hne⟩ := h3
    apply List.all_eq_false.mpr
    exact ⟨get_weather_data r (o r), List.mem_map_of_mem _ hr,
      fun hT => hne (Option.isNone_iff_eq_none.mp hT)⟩
  have hrun : processBatches o 3 delay
      [l.take 50, (l.drop 50).take 50, l.drop 100] 1 =
      ([batchObs o (l.take 50), batchObs o (l.drop 100)],
       ⟨[(checkpointName 1 3, batchObs o (l.take 50)),
         (checkpointName 3 3, batchObs o (l.drop 100))], [delay], [2]⟩) := by
    rw [processBatches, if_neg (by rw [hsucc1]; exact Bool.false_ne_true)]
    rw [processBatches, if_pos hfail2]
    rw [processBatches, if_neg (by rw [hsucc3]; exact Bool.false_ne_true)]
    rw [processBatches]
    norm_num
  have hpr : pipelineRun o df 50 delay =
      ([batchObs o (l.take 50), batchObs o (l.drop 100)],
       ⟨[(checkpointName 1 3, batchObs o (l.take 50)),
         (checkpointName 3 3, batchObs o (l.drop 100))], [delay], [2]⟩) := by
    rw [pipelineRun, ← hldef, htot, hchunk, hrun]
  refine ⟨?_, ?_, ?_, ?_, ?_⟩
  · rw [hchunk]
    simp [List.length_take, List.length_drop, hlen]
  · rw [process_dataframe, hpr]
    norm_num
  · simp [batchObs, List.length_append, List.length_map, List.length_take,
      List.length_drop, hlen]
  · rw [process_dataframe, hpr]
    norm_num
  · rw [process_dataframe, hpr]
    norm_num

/-- Row constructor of the C6 witness run: timestamp i, valid coordinates. -/
def mkRow6 (i : ℕ) : Row := ⟨some (i : ℤ), some 0, some 0, none⟩

/-- The 120 events of the C6 witness run, already in timestamp order. -/
def rows6 : List Row := (List.range 120).map mkRow6

@[simp] theorem sortKey_mkRow6 (i : ℕ) : sortKey (mkRow6 i) = (i : ℤ) := rfl

/-- Remote oracle of the C6 witness run: rows with timestamps 50..99 (exactly
batch 2 after sorting) get an empty sample; all others sample a temperature. -/
noncomputable def oracle6 : Row → Remote := fun r =>
  if 50 ≤ sortKey r ∧ sortKey r < 100 then ⟨1, SampleOutcome.noData⟩
  else ⟨1, SampleOutcome.ok [("temperature_2m", 280)]⟩

/-- Membership in a take-of-drop slice of a mapped range pins down the
underlying index. -/
theorem mem_take_drop_map_range {β : Type} (f : ℕ → β) (n a b : ℕ) (r : β)
    (h : r ∈ (((List.range n).map f).drop a).take b) :
    ∃ i, a ≤ i ∧ i < n ∧ i < a + b ∧ r = f i := by
  obtain ⟨j, hj, hget⟩ := List.mem_iff_getElem.mp h
  have hjlen := hj
  simp only [List.length_take, List.length_drop, List.length_map,
    List.length_range, Nat.lt_min] at hjlen
  refine ⟨a + j, by omega, by omega, by omega, ?_⟩
  rw [← hget]
  simp

theorem rows6_filter :
    rows6.filter (fun r => r.ignition_datetime.isSome) = rows6 := by
  apply List.filter_eq_self.mpr
  intro r hr
  rcases List.mem_map.mp hr with ⟨i, _, hir⟩
  subst hir
  rfl

theorem rows6_sorted : List.Pairwise (fun a b => sortKey a ≤ sortKey b) rows6 := by
  apply List.pairwise_map.mpr
  apply (List.pairwise_lt_range 120).imp
  intro a b hab
  show sortKey (mkRow6 a) ≤ sortKey (mkRow6 b)
  rw [sortKey_mkRow6, sortKey_mkRow6]
  exact_mod_cast Nat.le_of_lt hab

theorem rows6_normalize : normalize rows6 = rows6 := by
  rw [normalize, rows6_filter]
  exact List.Sorted.insertionSort_eq rows6_sorted

theorem rows6_length : (normalize rows6).length = 120 := by
  rw [rows6_normalize, rows6]
  simp

theorem rows6_batch2_null :
    ∀ r ∈ ((normalize rows6).drop 50).take 50,
      (get_weather_data r (oracle6 r)).temperature_c = none := by
  intro r hr
  rw [rows6_normalize, rows6] at hr
  obtain ⟨i, hi1, hi2, hi3, hir⟩ := mem_take_drop_map_range mkRow6 120 50 50 r hr
  subst hir
  have hcond : 50 ≤ sortKey (mkRow6 i) ∧ sortKey (mkRow6 i) < 100 := by
    rw [sortKey_mkRow6]
    constructor
    · exact_mod_cast hi1
    · exact_mod_cast (show i < 100 by omega)
  have ho : oracle6 (mkRow6 i) = ⟨1, SampleOutcome.noData⟩ := by
    simp only [oracle6]
    rw [if_pos hcond]
  rw [get_weather_data_noData (mkRow6 i) (oracle6 (mkRow6 i)) (by rw [ho])]
  rfl

theorem rows6_batch1_usable :
    ∃ r ∈ (normalize rows6).take 50,
      (get_weather_data r (oracle6 r)).temperature_c ≠ none := by
  refine ⟨mkRow6 0, ?_, ?_⟩
  · rw [rows6_normalize, rows6, ← List.map_take, List.take_range]
    exact List.mem_map_of_mem mkRow6 (List.mem_range.mpr (by norm_num))
  · have ho : oracle6 (mkRow6 0) =
        ⟨1, SampleOutcome.ok [("temperature_2m", 280)]⟩ := by
      simp only [oracle6, sortKey_mkRow6]
      rw [if_neg (by norm_num)]
    have hrec := get_weather_data_ok (mkRow6 0) (oracle6 (mkRow6 0))
      [("temperature_2m", 280)] ((0 : ℕ) : ℤ) 0 0 rfl rfl rfl
      (by rw [ho]; simp) (by rw [ho]) rfl
    rw [hrec]
    simp [dictGet]

theorem rows6_batch3_usable :
    ∃ r ∈ (normalize rows6).drop 100,
      (get_weather_data r (oracle6 r)).temperature_c ≠ none := by
  refine ⟨mkRow6 100, ?_, ?_⟩
  · rw [rows6_normalize, rows6, ← List.map_drop]
    refine List.mem_map_of_mem mkRow6 ?_
    apply List.mem_iff_getElem.mpr
    refine ⟨0, by simp, by simp⟩
  · have ho : oracle6 (mkRow6 100) =
        ⟨1, SampleOutcome.ok [("temperature_2m", 280)]⟩ := by
      simp only [oracle6, sortKey_mkRow6]
      rw [if_neg (by norm_num)]
    have hrec := get_weather_data_ok (mkRow6 100) (oracle6 (mkRow6 100))
      [("temperature_2m", 280)] ((100 : ℕ) : ℤ) 0 0 rfl rfl rfl
      (by rw [ho]; simp) (by rw [ho]) rfl
    rw [hrec]
    simp [dictGet]

/-- C6 (witness): the batch-isolation statement applied to the concrete
120-event run in which exactly the rows of batch 2 sample no data: batch 2 is
reported as skipped and the final output holds the 70 observations of
batches 1 and 3. -/
theorem C6_batch_isolation_witness :
    (process_dataframe oracle6 rows6 50 3).2.skipped = [2] ∧
    (batchObs oracle6 ((normalize rows6).take 50) ++
      batchObs oracle6 ((normalize rows6).drop 100)).length = 70 :=
  ⟨(C6_batch_isolation oracle6 rows6 3 rows6_length rows6_batch2_null
      rows6_batch1_usable rows6_batch3_usable).2.2.2.1,
   (C6_batch_isolation oracle6 rows6 3 rows6_length rows6_batch2_null
      rows6_batch1_usable rows6_batch3_usable).2.2.1⟩

end Wildfire
